import Mathlib

/-!
# Verification of the CP-SAT scheduling engine

Shallow embedding of the scheduling core of the Private-Coach web application
(`app/services/scheduler/cp_sat_solver.py`, `app/models/suggestion_session.py`,
`app/routes/schedule.py`) and proofs about it.

Modelling conventions:
* A `datetime` is embedded as minutes since a fixed epoch that falls on a
  Monday at 00:00, as an `Int`.  `weekday`, "truncate to the hour", Python's
  floor division (`timedelta.days`) and Python's `%` (always non-negative for
  a positive modulus) become `Int.ediv` / `Int.emod` with positive divisors.
* The CP-SAT solver itself is external; a solver outcome is embedded as the
  set of slots whose decision variable was assigned true, represented as the
  sublist `chosen` of the available slots.  The constraints the Python code
  adds to the model become decidable predicates on `chosen`; an assignment
  the solver may legally return is exactly an admissible `chosen`.
* Calendar rendering (`strftime`) is abstracted to the day index of the
  epoch-based timestamp; all date arithmetic is exact.
-/

namespace Coach

/-! ## Time arithmetic (minutes since a Monday-00:00 epoch) -/

/-- Day index of a timestamp (Python `datetime.date()` as a day count). -/
def dateOf (t : Int) : Int := t / 1440

/-- Python `datetime.weekday()`: 0 = Monday .. 6 = Sunday. -/
def weekday (t : Int) : Int := (t / 1440) % 7

/-- Midnight of the timestamp's day (`datetime.combine(t.date(), time.min)`). -/
def dayStart (t : Int) : Int := dateOf t * 1440

/-- Hour component of a timestamp (Python `datetime.hour`). -/
def hourOf (t : Int) : Int := t % 1440 / 60

/-! ## Data model (`app/models/schedule.py`, `app/models/booking.py`) -/

/-- A `ScheduleSlot` row: weekly recurring slot. `day_of_week` is 0=Monday..6,
`start_hour` is the hour of the day (10..21 in the seeded data). -/
structure Slot where
  id : Nat
  dayOfWeek : Int
  startHour : Int
  coachId : Nat
  capacity : Nat
deriving DecidableEq, Repr

/-- A non-cancelled `Booking` of the client, as used by the engine: only its
date-time matters to the constraints. -/
structure Booking where
  date : Int
deriving DecidableEq, Repr

/-- A `ClientPlan` row.  `sessionsPerWeek = none` models the Python object
lacking the `sessions_per_week` attribute, which is what the engine's
`getattr(plan, 'sessions_per_week', 3)` probes for. -/
structure ClientPlan where
  sessionsPerWeek : Option Int
  assignedCoachId : Nat
deriving DecidableEq, Repr

/-- A `ClientPreference` row.  A set start hour with an unset end hour would
raise in the source before reaching the message builders; it is treated as no
preference here. -/
structure ClientPreference where
  preferredStartHour : Option Int
  preferredEndHour : Option Int
  isFlexible : Bool
deriving DecidableEq, Repr

/-- The scheduling data gathered by `_gather_scheduling_data`: the read-only
context of one optimization run.  `startDate` is `time_window[0]`, i.e. the
preferred date or "now".  `coaches` resolves coach display names. -/
structure SchedulingData where
  clientId : Nat
  clientPlan : ClientPlan
  clientPreference : Option ClientPreference
  availableSlots : List Slot
  existingBookings : List Booking
  startDate : Int
  coaches : List (Nat × String)

/-! ## Slot date-time resolution

The source resolves a candidate slot `(day_of_week, start_hour)` to an
absolute date-time in four places, with three different formulas.  Each is
embedded separately so their (dis)agreement can be stated. -/

/-- Resolution used by the recovery-vs-existing-bookings check
(`_add_recovery_constraints`, lines 318-334): next occurrence of the weekday
on/after `startDate`, rolled one week forward when that occurrence is the
start date itself and the slot's hour has already passed `now`. -/
def recoveryCheckDatetime (startDate now : Int) (s : Slot) : Int :=
  let d := (s.dayOfWeek - weekday startDate) % 7
  let d' := if d = 0 ∧ dayStart startDate + s.startHour * 60 ≤ now then 7 else d
  (dateOf startDate + d') * 1440 + s.startHour * 60

/-- Resolution used by the past-time check (`_add_current_time_constraints`,
lines 394-407); textually the same computation as the recovery check. -/
def currentTimeCheckDatetime (startDate now : Int) (s : Slot) : Int :=
  let d := (s.dayOfWeek - weekday startDate) % 7
  let d' := if d = 0 ∧ dayStart startDate + s.startHour * 60 ≤ now then 7 else d
  (dateOf startDate + d') * 1440 + s.startHour * 60

/-- Resolution used by the pairwise recovery check between candidate slots
(`_add_recovery_constraints`, lines 356-363): `time_window[0] +
timedelta(days=day_of_week, hours=start_hour)` - the weekday is added as a
plain day offset, with no next-occurrence search and no rollforward. -/
def pairwiseDatetime (startDate : Int) (s : Slot) : Int :=
  startDate + s.dayOfWeek * 1440 + s.startHour * 60

/-- Day offset used by `_extract_suggestions` (lines 602-607): rolls one week
forward only when the base date's hour strictly exceeds the slot hour,
independent of the current time. -/
def extractionDays (baseDate : Int) (s : Slot) : Int :=
  let d := (s.dayOfWeek - weekday baseDate) % 7
  if d = 0 ∧ hourOf baseDate > s.startHour then 7 else d

/-- The `date_suggestion` (a calendar date, as a day index) emitted for a
selected slot by `_extract_suggestions`. -/
def suggestionDate (baseDate : Int) (s : Slot) : Int :=
  dateOf baseDate + extractionDays baseDate s

/-- Modelled from the spec (section 4.2): "find the next occurrence of the
slot's day-of-week on/after the context's start date; if it falls on the
start date itself but the slot's hour has already passed, roll forward one
week."  Stated independently of the code for the refinement claim C3. -/
def specNextOccurrence (startDate now : Int) (s : Slot) : Int :=
  let occDay := dateOf startDate + (s.dayOfWeek - weekday startDate) % 7
  let t := occDay * 1440 + s.startHour * 60
  if occDay = dateOf startDate ∧ t ≤ now then t + 7 * 1440 else t

/-! ## Constraint model (`_create_model` and the `_add_*_constraints` family)

Scheduling parameters from `CPSATScheduler.__init__`. -/

/-- `self.min_recovery_hours = 24`. -/
def minRecoveryHours : Nat := 24

/-- `self.max_suggestions = 5`. -/
def maxSuggestions : Nat := 5

/-- A slot forced to 0 by the recovery constraint against an existing
booking: some non-cancelled booking at most 7 days old (Python
`(now - booking.date).days > 7` skips older ones, flooring like
`timedelta.days`) has the slot's resolved date-time inside its forbidden
window `[booking - 24h, booking + 1h + 24h]`. -/
def RecoveryExcluded (data : SchedulingData) (now : Int) (s : Slot) : Prop :=
  ∃ b ∈ data.existingBookings,
    (now - b.date) / 1440 ≤ 7 ∧
    b.date - (minRecoveryHours : Int) * 60 ≤ recoveryCheckDatetime data.startDate now s ∧
    recoveryCheckDatetime data.startDate now s ≤ b.date + 60 + (minRecoveryHours : Int) * 60

instance (data : SchedulingData) (now : Int) (s : Slot) :
    Decidable (RecoveryExcluded data now s) := by
  unfold RecoveryExcluded; exact inferInstance

/-- Mutual-exclusion trigger of the pairwise recovery constraint: the two
slots' `pairwiseDatetime`s are less than 24 hours apart (the source compares
fractional hours; the difference is an exact number of minutes, so comparing
minutes is equivalent). -/
def PairMutex (startDate : Int) (s1 s2 : Slot) : Prop :=
  (pairwiseDatetime startDate s2 - pairwiseDatetime startDate s1).natAbs <
    minRecoveryHours * 60

instance (startDate : Int) (s1 s2 : Slot) : Decidable (PairMutex startDate s1 s2) := by
  unfold PairMutex; exact inferInstance

/-- A slot forced to 0 by `_add_current_time_constraints`: its resolved
date-time is not strictly in the future. -/
def PastExcluded (data : SchedulingData) (now : Int) (s : Slot) : Prop :=
  currentTimeCheckDatetime data.startDate now s ≤ now

instance (data : SchedulingData) (now : Int) (s : Slot) :
    Decidable (PastExcluded data now s) := by
  unfold PastExcluded; exact inferInstance

/-- `getattr(client_plan, 'sessions_per_week', 3)`: the plan's weekly quota,
defaulting to 3 when the attribute is absent. -/
def weeklyLimit (p : ClientPlan) : Int := p.sessionsPerWeek.getD 3

/-- `_count_current_week_bookings`: bookings inside
`[start - weekday(start) days, +7 days)`.  Note the window keeps the start
date's time of day, exactly as the source's `timedelta` arithmetic does. -/
def countCurrentWeekBookings (data : SchedulingData) : Nat :=
  let weekStart := data.startDate - weekday data.startDate * 1440
  (data.existingBookings.filter
    (fun b => decide (weekStart ≤ b.date ∧ b.date < weekStart + 7 * 1440))).length

/-- `_count_next_week_bookings`. -/
def countNextWeekBookings (data : SchedulingData) : Nat :=
  let nextWeekStart := data.startDate - weekday data.startDate * 1440 + 7 * 1440
  (data.existingBookings.filter
    (fun b => decide (nextWeekStart ≤ b.date ∧ b.date < nextWeekStart + 7 * 1440))).length

/-- Remaining weekly quota as computed before solving
(`weekly_limit - current_week_bookings`). -/
def RemainingQuota (data : SchedulingData) : Int :=
  weeklyLimit data.clientPlan - (countCurrentWeekBookings data : Int)

/-- The slots forced to 0 by `_add_weekly_quota_constraints`: all of them when
the remaining quota is non-positive, none otherwise. -/
def weeklyQuotaForcedSlots (data : SchedulingData) : List Slot :=
  if RemainingQuota data ≤ 0 then data.availableSlots else []

/-- An assignment the solver may return for the model built by the main path
of `suggest_optimal_bookings`: `chosen` is the list of slots with decision
variable 1 (a sublist of the available slots), and it satisfies every hard
constraint added there:
exact count, recovery vs bookings, pairwise recovery, past-time exclusion,
the excluded-slot-ids constraint, and the weekly-quota constraint. -/
def AdmissibleFull (data : SchedulingData) (now : Int) (excl : List Nat)
    (n : Nat) (chosen : List Slot) : Prop :=
  chosen.length = n ∧
  (∀ s ∈ chosen, ¬ RecoveryExcluded data now s) ∧
  chosen.Pairwise (fun s1 s2 => ¬ PairMutex data.startDate s1 s2) ∧
  (∀ s ∈ chosen, ¬ PastExcluded data now s) ∧
  (∀ s ∈ chosen, s.id ∉ excl) ∧
  (RemainingQuota data ≤ 0 → chosen = [])

instance (data : SchedulingData) (now : Int) (excl : List Nat) (n : Nat)
    (chosen : List Slot) : Decidable (AdmissibleFull data now excl n chosen) := by
  unfold AdmissibleFull; exact inferInstance

/-- An assignment the solver may return for a model built by
`_try_partial_solutions`: the retry re-adds only the capacity, recovery,
coach-availability, current-time and preference constraints - the
excluded-slots and weekly-quota constraints of the main path are *not*
re-applied (source lines 869-876). -/
def AdmissibleRetry (data : SchedulingData) (now : Int)
    (n : Nat) (chosen : List Slot) : Prop :=
  chosen.length = n ∧
  (∀ s ∈ chosen, ¬ RecoveryExcluded data now s) ∧
  chosen.Pairwise (fun s1 s2 => ¬ PairMutex data.startDate s1 s2) ∧
  (∀ s ∈ chosen, ¬ PastExcluded data now s)

instance (data : SchedulingData) (now : Int) (n : Nat) (chosen : List Slot) :
    Decidable (AdmissibleRetry data now n chosen) := by
  unfold AdmissibleRetry; exact inferInstance

/-- The retry model at count `n` has at least one admissible assignment. -/
def RetryFeasible (data : SchedulingData) (now : Int) (n : Nat) : Prop :=
  ∃ chosen ∈ data.availableSlots.sublists, AdmissibleRetry data now n chosen

instance (data : SchedulingData) (now : Int) (n : Nat) :
    Decidable (RetryFeasible data now n) := by
  unfold RetryFeasible; exact inferInstance

/-! ## Solver invocation (`_solve_model`) -/

/-- The CP-SAT statuses the solver can return (`cp_model.OPTIMAL`, `FEASIBLE`,
`INFEASIBLE`, `UNKNOWN`, `MODEL_INVALID`). -/
inductive CpStatus
  | OPTIMAL
  | FEASIBLE
  | INFEASIBLE
  | UNKNOWN
  | MODEL_INVALID
deriving DecidableEq, Repr

/-- The `status_map` dictionary of `_solve_model`: how each solver status is
reported.  The map is total over the status enumeration, so the `.get`
default `"UNKNOWN"` of the source is unreachable. -/
def statusMap : CpStatus → String
  | .OPTIMAL => "OPTIMAL"
  | .FEASIBLE => "FEASIBLE"
  | .INFEASIBLE => "NO_SOLUTION"
  | .UNKNOWN => "TIMEOUT"
  | .MODEL_INVALID => "INVALID"

/-- `confidence = 1.0 if OPTIMAL else 0.8 if FEASIBLE else 0.0`. -/
def statusConfidence (s : CpStatus) : ℚ :=
  if s = .OPTIMAL then 1.0 else if s = .FEASIBLE then 0.8 else 0.0

/-! ## Diagnostic messages -/

/-- `_generate_week_status_message`. -/
def generateWeekStatusMessage (data : SchedulingData) : String :=
  let limit := weeklyLimit data.clientPlan
  let cur : Int := countCurrentWeekBookings data
  let curRem := limit - cur
  let nxt : Int := countNextWeekBookings data
  let nxtRem := limit - nxt
  let m1 :=
    if 0 < curRem then
      s!"📅 This Week: You have {curRem} session(s) left to finish your weekly goal."
    else
      s!"📅 This Week: Complete! You\x27ve booked all {limit}/{limit} sessions for this week."
  let m2 :=
    if nxt = 0 then
      s!"📅 Next Week: Available - you can book up to {limit} sessions."
    else if 0 < nxtRem then
      s!"📅 Next Week: You have {nxt}/{limit} sessions booked, {nxtRem} slot(s) remaining."
    else
      s!"📅 Next Week: Full - you already booked all {limit}/{limit} sessions."
  m1 ++ " " ++ m2

/-- Explanation appended by `_add_capacity_constraints`. -/
def capacityExplanation : String :=
  "Capacity constraints: Only considering slots with available space"

/-- Explanation appended by `_add_recovery_constraints`. -/
def recoveryExplanation : String :=
  s!"Recovery constraint: {minRecoveryHours}h minimum between sessions (including newly scheduled sessions)"

/-- Explanation appended by `_add_coach_availability_constraints`. -/
def coachExplanation : String :=
  "Coach availability: Only considering slots during coach shifts"

/-- Number of available slots excluded by the past-time constraint. -/
def currentTimeExcludedCount (data : SchedulingData) (now : Int) : Nat :=
  (data.availableSlots.filter (fun s => decide (PastExcluded data now s))).length

/-- Explanation appended by `_add_current_time_constraints`. -/
def currentTimeExplanation (data : SchedulingData) (now : Int) : String :=
  let n := currentTimeExcludedCount data now
  s!"Current time constraint: Excluded {n} past time slots"

/-- Explanation appended by `_add_weekly_quota_constraints`. -/
def weeklyQuotaExplanation (data : SchedulingData) : String :=
  let limit := weeklyLimit data.clientPlan
  let cur : Int := countCurrentWeekBookings data
  let rem := limit - cur
  if rem ≤ 0 then
    s!"Weekly quota constraint: Already used {cur}/{limit} sessions this week"
  else
    s!"Weekly quota constraint: {rem} sessions remaining this week ({cur}/{limit} used)"

/-- Explanation appended by `_add_excluded_slots_constraints` when at least
one available slot is excluded. -/
def excludedExplanation (n : Nat) : String :=
  s!"Re-suggestion constraint: Excluded {n} previously suggested time slots to find alternatives"

/-- Explanation appended by `_add_preference_constraints` when the client has
a stored preference. -/
def preferenceExplanation : String :=
  "Preference optimization: Prioritizing preferred time slots"

/-- The `constraint_explanations` accumulated on the main path of
`suggest_optimal_bookings` (week status first, then one entry per
`_add_*_constraints` call, in call order). -/
def mainExplanations (data : SchedulingData) (now : Int) (excl : List Nat) : List String :=
  [generateWeekStatusMessage data, capacityExplanation, recoveryExplanation,
   coachExplanation, currentTimeExplanation data now, weeklyQuotaExplanation data]
  ++ (let n := (data.availableSlots.filter (fun s => decide (s.id ∈ excl))).length
      if 0 < n then [excludedExplanation n] else [])
  ++ (if data.clientPreference.isSome then [preferenceExplanation] else [])

/-- The `constraint_explanations` rebuilt inside each `_try_partial_solutions`
iteration (the list is reset, and the weekly-quota and excluded-slots
constraints are not re-added). -/
def retryExplanations (data : SchedulingData) (now : Int) : List String :=
  [capacityExplanation, recoveryExplanation, coachExplanation,
   currentTimeExplanation data now]
  ++ (if data.clientPreference.isSome then [preferenceExplanation] else [])

/-- `_analyze_constraint_failures` (the `found` argument of the source is
unused there). -/
def analyzeConstraintFailures (data : SchedulingData) (requested : Nat) : String :=
  let nb := data.existingBookings.length
  let r1 : List String :=
    if 0 < nb then [s!"Recovery constraints from {nb} existing booking(s)"] else []
  let r2 : List String :=
    match data.clientPreference with
    | none => []
    | some p =>
      match p.preferredStartHour, p.preferredEndHour with
      | some ps, some pe =>
        let matching :=
          (data.availableSlots.filter (fun s =>
            if p.isFlexible then decide (ps - 1 ≤ s.startHour ∧ s.startHour ≤ pe + 1)
            else decide (ps ≤ s.startHour ∧ s.startHour ≤ pe))).length
        if matching < requested then
          let ft := if p.isFlexible then "flexible" else "strict"
          [s!"Preference constraints ({ft} hours {ps}-{pe}): only {matching} matching slots"]
        else []
      | _, _ => []
  let rs := r1 ++ r2
  if rs.isEmpty then "Multiple constraints are limiting available combinations."
  else "Reasons: " ++ String.intercalate "; " rs ++ "."

/-- Warning message heading a partial-solution result
(`_try_partial_solutions`, lines 890-891). -/
def warningMessage (data : SchedulingData) (found orig : Nat) : String :=
  s!"⚠️ Could only find {found} session(s) instead of {orig}. "
    ++ analyzeConstraintFailures data orig

/-! ## Results and extraction -/

/-- One suggestion record emitted by `_extract_suggestions` (the purely
presentational `optimization_score` field is not modelled). -/
structure Suggestion where
  slotId : Nat
  coachId : Nat
  coachName : String
  dayOfWeek : Int
  hour : Int
  dateSuggestion : Int
  confidencePct : ℚ
  capacityAvailable : Nat
deriving DecidableEq, Repr

/-- The `SchedulingResult` dataclass (wall-clock `solve_time_ms` and the
derived `reasons` list are not modelled). -/
structure SchedulingResult where
  clientId : Nat
  suggestedSlots : List Suggestion
  totalSuggestions : Nat
  solverStatus : String
  confidenceScore : ℚ
  constraintsSatisfied : List String
deriving Repr

/-- Coach display name lookup (`db.query(User)...`), `"Unknown Coach"` when
the coach record is missing. -/
def coachNameOf (data : SchedulingData) (cid : Nat) : String :=
  match data.coaches.lookup cid with
  | some n => n
  | none => "Unknown Coach"

/-- The suggestion record for one selected slot. -/
def mkSuggestion (data : SchedulingData) (conf : ℚ) (s : Slot) : Suggestion :=
  { slotId := s.id
    coachId := s.coachId
    coachName := coachNameOf data s.coachId
    dayOfWeek := s.dayOfWeek
    hour := s.startHour
    dateSuggestion := suggestionDate data.startDate s
    confidencePct := conf * 100
    capacityAvailable := s.capacity }

/-- Sort order of `_extract_suggestions`: ascending by `(hour, day_of_week)`. -/
def suggLe (a b : Suggestion) : Prop :=
  a.hour < b.hour ∨ (a.hour = b.hour ∧ a.dayOfWeek ≤ b.dayOfWeek)

instance : DecidableRel suggLe := fun a b => by
  unfold suggLe; exact inferInstance

/-- `_extract_suggestions`: empty for `NO_SOLUTION`/`INVALID`, otherwise the
selected slots' records sorted by `(hour, day_of_week)` and truncated to
`max_suggestions`. -/
def extractSuggestions (data : SchedulingData) (chosen : List Slot)
    (conf : ℚ) (status : String) : List Suggestion :=
  if status = "NO_SOLUTION" ∨ status = "INVALID" then []
  else (List.insertionSort suggLe (chosen.map (mkSuggestion data conf))).take maxSuggestions

/-- `_create_no_availability_result`. -/
def createNoAvailabilityResult (data : SchedulingData) : SchedulingResult :=
  { clientId := data.clientId
    suggestedSlots := []
    totalSuggestions := 0
    solverStatus := "NO_AVAILABILITY"
    confidenceScore := 0
    constraintsSatisfied := ["No available slots found"] }

/-- `_create_quota_exceeded_result`: the plan is present on this path, so the
week-status message is rebuilt over a temporary context whose window starts
at today's midnight and whose bookings are re-queried from the database
(passed here as `recentBookings`). -/
def createQuotaExceededResult (data : SchedulingData) (now : Int)
    (recentBookings : List Booking) : SchedulingResult :=
  let tempData : SchedulingData :=
    { data with existingBookings := recentBookings, startDate := dayStart now }
  let msg := "❌ Cannot book more sessions this week. "
    ++ generateWeekStatusMessage tempData
  { clientId := data.clientId
    suggestedSlots := []
    totalSuggestions := 0
    solverStatus := "WEEKLY_QUOTA_EXCEEDED"
    confidenceScore := 0
    constraintsSatisfied := [msg] }

/-- Rendering of a timestamp in a diagnostic message; the source formats the
calendar date with `strftime('%Y-%m-%d %H:%M')`, abstracted here to the
epoch day index plus hour and minute. -/
def formatTimestamp (t : Int) : String :=
  s!"day {dateOf t} {hourOf t}:{(t % 60)}"

/-- Earliest booking date (`min(bookings, key=lambda b: b.date)`); only
evaluated on non-empty lists in the source. -/
def earliestBookingDate : List Booking → Int
  | [] => 0
  | b :: t => t.foldl (fun acc b2 => min acc b2.date) b.date

/-- `_create_detailed_failure_analysis`.  `prevExplanations` is the
`constraint_explanations` state at the call: the last retry iteration's list
when the retry loop ran, the main path's list otherwise. -/
def createDetailedFailureAnalysis (data : SchedulingData)
    (numSessions : Nat) (prevExplanations : List String) : SchedulingResult :=
  let nSlots := data.availableSlots.length
  let nBook := data.existingBookings.length
  let limit := weeklyLimit data.clientPlan
  let cur : Int := countCurrentWeekBookings data
  let wsm := generateWeekStatusMessage data
  let e1 : List String :=
    if nSlots = 0 then ["❌ No available time slots found for your assigned coach."] else []
  let e2 : List String :=
    if limit ≤ cur then [s!"❌ Weekly quota reached. {wsm}"]
    else if limit < cur + numSessions then [s!"❌ Weekly quota would be exceeded. {wsm}"]
    else if 0 < nBook then
      let ts := formatTimestamp (earliestBookingDate data.existingBookings + 25 * 60)
      [s!"❌ Recovery constraint: You have {nBook} recent booking(s). Next available time: {ts} (24-hour recovery required)."]
    else []
  let e3 : List String :=
    match data.clientPreference with
    | none => []
    | some p =>
      match p.preferredStartHour, p.preferredEndHour with
      | some ps, some pe =>
        match data.availableSlots.map (·.startHour) with
        | [] => []
        | h :: t =>
          let mn := t.foldl min h
          let mx := t.foldl max h
          if p.isFlexible then []
          else if pe < mn ∨ mx < ps then
            [s!"❌ Preference mismatch: Your preferred hours ({ps}-{pe}) don\x27t overlap with your coach\x27s working hours ({mn}-{mx}). Consider making your preferences flexible."]
          else
            let ovs := max ps mn
            let ove := min pe mx
            if ove - ovs < (numSessions : Int) then
              [s!"❌ Insufficient overlap: Your strict preferences ({ps}-{pe}) have limited overlap with coach hours ({mn}-{mx}). Consider flexible preferences."]
            else []
      | _, _ => []
  let errs := e1 ++ e2 ++ e3
  let mainError :=
    if errs.isEmpty then
      s!"❌ Cannot find {numSessions} sessions that satisfy all scheduling constraints."
    else String.intercalate "\n" errs
  { clientId := data.clientId
    suggestedSlots := []
    totalSuggestions := 0
    solverStatus := "NO_SOLUTION_DETAILED"
    confidenceScore := 0
    constraintsSatisfied := mainError :: prevExplanations }

/-! ## Degradation controller (`_try_partial_solutions`) -/

/-- The decreasing retry counts `range(original_sessions - 1, 0, -1)`. -/
def countdown (n : Nat) : List Nat :=
  ((List.range (n - 1)).reverse).map (· + 1)

/-- First count in the list for which the solver oracle reports an
optimal/feasible assignment (`sol k = some (chosen, isOptimal)`), together
with that assignment. -/
def findFirstSolvable (sol : Nat → Option (List Slot × Bool)) :
    List Nat → Option (Nat × List Slot × Bool)
  | [] => none
  | k :: rest =>
    match sol k with
    | some (ch, b) => some (k, ch, b)
    | none => findFirstSolvable sol rest

/-- The partial result built when the retry at count `k` succeeds: confidence
is the base solver confidence scaled by `k / origN`, and the diagnostics are
headed by the explicit warning message. -/
def mkReducedCountResult (data : SchedulingData) (now : Int) (origN k : Nat)
    (chosen : List Slot) (isOpt : Bool) : SchedulingResult :=
  let status := if isOpt then CpStatus.OPTIMAL else CpStatus.FEASIBLE
  let conf := statusConfidence status
  let sugg := extractSuggestions data chosen conf (statusMap status)
  { clientId := data.clientId
    suggestedSlots := sugg
    totalSuggestions := sugg.length
    solverStatus := "PARTIAL_SOLUTION_" ++ toString k
    confidenceScore := conf * ((k : ℚ) / (origN : ℚ))
    constraintsSatisfied := warningMessage data k origN :: retryExplanations data now }

/-- `_try_partial_solutions`: retry the solve at counts `origN-1` down to 1;
return the first optimal/feasible outcome as a partial result, otherwise the
detailed failure analysis. -/
def tryReducedSessionCounts (sol : Nat → Option (List Slot × Bool))
    (data : SchedulingData) (now : Int) (origN : Nat)
    (prevExplanations : List String) : SchedulingResult :=
  match findFirstSolvable sol (countdown origN) with
  | some (k, ch, b) => mkReducedCountResult data now origN k ch b
  | none =>
    let expl := if countdown origN = [] then prevExplanations
                else retryExplanations data now
    createDetailedFailureAnalysis data origN expl

/-! ## The suggestion pipeline (`suggest_optimal_bookings`) -/

/-- Outcome of the pre-solve phase of `suggest_optimal_bookings`:
no-availability short circuit, weekly-quota short circuit (the solver is
never invoked), or a solve at the possibly quota-capped session count. -/
inductive PreSolveDecision
  | noAvailability
  | quotaExceeded
  | solve (n : Nat)
deriving DecidableEq, Repr

/-- The pre-solve phase (source lines 120-143): empty-slot check, then quota
short-circuit, then capping the requested count to the remaining quota. -/
def preSolve (data : SchedulingData) (numSessions : Nat) : PreSolveDecision :=
  if data.availableSlots = [] then .noAvailability
  else if RemainingQuota data ≤ 0 then .quotaExceeded
  else if RemainingQuota data < (numSessions : Int) then
    .solve (RemainingQuota data).toNat
  else .solve numSessions

/-- `suggest_optimal_bookings` after data gathering.  The CP-SAT solve of the
full model is abstracted as `mainSol` (`some (chosen, isOptimal)` for an
optimal/feasible outcome, `none` for infeasible); the retry solves of
`_try_partial_solutions` as `retrySol`.  Theorems constrain these oracles to
sound solver behaviour.  A solver timeout on the main solve (status
`TIMEOUT`) is not modelled. -/
def suggestPipeline (data : SchedulingData) (now : Int)
    (mainSol : Option (List Slot × Bool))
    (retrySol : Nat → Option (List Slot × Bool))
    (numSessions : Nat) (excl : List Nat)
    (recentBookings : List Booking) : SchedulingResult :=
  match preSolve data numSessions with
  | .noAvailability => createNoAvailabilityResult data
  | .quotaExceeded => createQuotaExceededResult data now recentBookings
  | .solve n =>
    match mainSol with
    | none => tryReducedSessionCounts retrySol data now n (mainExplanations data now excl)
    | some (ch, isOpt) =>
      let status := if isOpt then CpStatus.OPTIMAL else CpStatus.FEASIBLE
      let conf := statusConfidence status
      let sugg := extractSuggestions data ch conf (statusMap status)
      { clientId := data.clientId
        suggestedSlots := sugg
        totalSuggestions := sugg.length
        solverStatus := statusMap status
        confidenceScore := conf
        constraintsSatisfied := mainExplanations data now excl }

/-! ## Suggestion sessions (`app/models/suggestion_session.py`,
`app/routes/schedule.py`) -/

/-- `SuggestionSession.add_to_suggested_history`: append each new slot id not
already present, in order of first appearance. -/
def addToSuggestedHistory (existing newIds : List Nat) : List Nat :=
  newIds.foldl (fun acc i => if i ∈ acc then acc else acc ++ [i]) existing

/-- The mutable state of one suggestion session that the re-suggestion
endpoints read and write: the stored current suggestions (as slot ids, which
is all the endpoints use them for) and the cumulative history
`all_suggested_slots_json`. -/
structure SessionRec where
  clientId : Nat
  numSessions : Nat
  currentSuggestionIds : List Nat
  history : List Nat
deriving DecidableEq, Repr

/-- The `re-suggest-session` endpoint (`re_suggest_session_based`) after the
token/expiry guards: fold the current suggestions into the history, exclude
the whole history, re-run the engine with the session's original parameters,
then record the new suggestions. -/
def reSuggestSessionBased (data : SchedulingData) (now : Int)
    (mainSol : Option (List Slot × Bool))
    (retrySol : Nat → Option (List Slot × Bool))
    (recentBookings : List Booking) (sess : SessionRec) :
    SchedulingResult × SessionRec :=
  let hist1 := addToSuggestedHistory sess.history sess.currentSuggestionIds
  let excl := hist1
  let result := suggestPipeline data now mainSol retrySol sess.numSessions excl recentBookings
  let newIds := result.suggestedSlots.map (·.slotId)
  let hist2 := if result.suggestedSlots.isEmpty then hist1
               else addToSuggestedHistory hist1 newIds
  (result, { sess with currentSuggestionIds := newIds, history := hist2 })

/-! ## Concrete scenarios

All timestamps are minutes since a Monday-00:00 epoch.  Day 0 is a Monday,
day 2 a Wednesday, day 7 the following Monday. -/

/-- Slot 1: Mondays at 14:00. -/
def slotMon14 : Slot :=
  { id := 1, dayOfWeek := 0, startHour := 14, coachId := 11, capacity := 10 }

/-- Slot 2: Thursdays at 10:00. -/
def slotThu10 : Slot :=
  { id := 2, dayOfWeek := 3, startHour := 10, coachId := 11, capacity := 10 }

/-- Slot 3: Sundays at 10:00. -/
def slotSun10 : Slot :=
  { id := 3, dayOfWeek := 6, startHour := 10, coachId := 11, capacity := 10 }

/-- Slot 4: Mondays at 9:00. -/
def slotMon9 : Slot :=
  { id := 4, dayOfWeek := 0, startHour := 9, coachId := 11, capacity := 10 }

/-- Slot 5: Mondays at 12:00. -/
def slotMon12 : Slot :=
  { id := 5, dayOfWeek := 0, startHour := 12, coachId := 11, capacity := 10 }

/-- An ABC plan: 3 sessions per week, coach 11. -/
def planABC : ClientPlan := { sessionsPerWeek := some 3, assignedCoachId := 11 }

/-- A plan whose object lacks the `sessions_per_week` attribute. -/
def planNoLimit : ClientPlan := { sessionsPerWeek := none, assignedCoachId := 11 }

/-- Re-suggestion scenario: the session was created with
`preferred_date` = Wednesday of week 0 (start = minute 2880) and the
re-suggestion call happens the following Monday at 12:00 (minute 10800).
Slot 2's resolved occurrence (Thursday of week 0, 10:00) already lies in the
past at that moment; slot 1's (Monday of week 1, 14:00) is still ahead. -/
def dataResuggest : SchedulingData :=
  { clientId := 7
    clientPlan := planABC
    clientPreference := none
    availableSlots := [slotMon14, slotThu10]
    existingBookings := []
    startDate := 2 * 1440
    coaches := [(11, "Alex Doe")] }

/-- The moment of the re-suggestion call in the scenario above. -/
def nowResuggest : Int := 7 * 1440 + 12 * 60

/-- Session state at the start of the re-suggestion call: two sessions were
originally requested, slots 1 and 2 have both been shown before, slot 2 is
the currently stored suggestion. -/
def sessResuggest : SessionRec :=
  { clientId := 7, numSessions := 2, currentSuggestionIds := [2], history := [1, 2] }

/-- A solver oracle that (correctly) reports the retry model at count 1
optimal with slot 1 selected, and everything else infeasible. -/
def oracleMonOnly : Nat → Option (List Slot × Bool) :=
  fun k => if k = 1 then some ([slotMon14], true) else none

/-- Pairwise-recovery scenario: window starts Wednesday 00:00 of week 0
(minute 2880, which is also "now").  The Sunday slot resolves to day 6 at
10:00 and the Monday slot to day 7 at 9:00 - 23 hours apart - while their
`pairwiseDatetime`s are 145 hours apart, so no mutual-exclusion constraint
is generated. -/
def dataPairGap : SchedulingData :=
  { clientId := 7
    clientPlan := planABC
    clientPreference := none
    availableSlots := [slotSun10, slotMon9]
    existingBookings := []
    startDate := 2 * 1440
    coaches := [(11, "Alex Doe")] }

/-- Same-hour extraction scenario: start = now = Monday 12:30 of week 0
(minute 750) with a Monday-12:00 slot.  The constraint resolution rolls the
slot to the next Monday (future), but the extraction's rollforward test
`base_date.hour > slot.start_hour` is false at equal hours, so the reported
date is the start Monday with hour 12 - half an hour in the past. -/
def dataSameHour : SchedulingData :=
  { clientId := 7
    clientPlan := planABC
    clientPreference := none
    availableSlots := [slotMon12]
    existingBookings := []
    startDate := 750
    coaches := [(11, "Alex Doe")] }

/-- Three bookings inside the calendar week of a Wednesday start: Monday
10:00, Tuesday 10:00 and Wednesday 10:00 of week 0. -/
def bookingsThisWeek3 : List Booking := [⟨600⟩, ⟨600 + 1440⟩, ⟨600 + 2 * 1440⟩]

/-- Quota-exhausted scenario: plan quota 3, three bookings already made in
the week of the Wednesday start date. -/
def dataQuotaFull : SchedulingData :=
  { clientId := 7
    clientPlan := planABC
    clientPreference := none
    availableSlots := [slotMon14]
    existingBookings := bookingsThisWeek3
    startDate := 2 * 1440
    coaches := [(11, "Alex Doe")] }

/-- Quota-capping scenario: plan quota 3, one booking already made this week,
so a request for 5 sessions is capped to the remaining 2. -/
def dataQuotaCap : SchedulingData :=
  { clientId := 7
    clientPlan := planABC
    clientPreference := none
    availableSlots := [slotMon14]
    existingBookings := [⟨600⟩]
    startDate := 2 * 1440
    coaches := [(11, "Alex Doe")] }

/-- Scenario for the default weekly limit: the plan object lacks
`sessions_per_week`. -/
def dataNoLimit : SchedulingData :=
  { clientId := 7
    clientPlan := planNoLimit
    clientPreference := none
    availableSlots := [slotMon14]
    existingBookings := [⟨600⟩]
    startDate := 2 * 1440
    coaches := [(11, "Alex Doe")] }

/-- The scheduling data with the plan's weekly quota replaced by an explicit
3, for stating that a missing quota behaves as 3. -/
def setWeeklyLimitThree (data : SchedulingData) : SchedulingData :=
  { data with clientPlan := { data.clientPlan with sessionsPerWeek := some 3 } }

/-! ## Helper lemmas -/

/-- Unfolding `add_to_suggested_history` one new id at a time. -/
theorem addToSuggestedHistory_cons (ex : List Nat) (i : Nat) (t : List Nat) :
    addToSuggestedHistory ex (i :: t) =
      addToSuggestedHistory (if i ∈ ex then ex else ex ++ [i]) t := rfl

/-- The stored history is a prefix of the updated history. -/
theorem prefix_addToSuggestedHistory (ex newIds : List Nat) :
    ex <+: addToSuggestedHistory ex newIds := by
  induction newIds generalizing ex with
  | nil => exact List.prefix_rfl
  | cons i t ih =>
    rw [addToSuggestedHistory_cons]
    refine List.IsPrefix.trans ?_ (ih _)
    split
    · exact List.prefix_rfl
    · exact List.prefix_append ex [i]

/-- Membership in the updated history. -/
theorem mem_addToSuggestedHistory (ex newIds : List Nat) (x : Nat) :
    x ∈ addToSuggestedHistory ex newIds ↔ x ∈ ex ∨ x ∈ newIds := by
  induction newIds generalizing ex with
  | nil => simp [addToSuggestedHistory]
  | cons i t ih =>
    rw [addToSuggestedHistory_cons, ih]
    by_cases h : i ∈ ex
    · simp only [if_pos h, List.mem_cons]
      constructor
      · rintro (h1 | h1)
        · exact Or.inl h1
        · exact Or.inr (Or.inr h1)
      · rintro (h1 | rfl | h1)
        · exact Or.inl h1
        · exact Or.inl h
        · exact Or.inr h1
    · rw [if_neg h]
      simp only [List.mem_append, List.mem_singleton, List.mem_cons, List.not_mem_nil]
      tauto

/-- Adding ids that are all already present leaves the history unchanged. -/
theorem addToSuggestedHistory_of_subset (ex newIds : List Nat)
    (h : ∀ x ∈ newIds, x ∈ ex) : addToSuggestedHistory ex newIds = ex := by
  induction newIds with
  | nil => rfl
  | cons i t ih =>
    rw [addToSuggestedHistory_cons, if_pos (h i (by simp))]
    exact ih (fun x hx => h x (by simp [hx]))

/-- The update never introduces duplicates. -/
theorem nodup_addToSuggestedHistory (ex newIds : List Nat) (h : ex.Nodup) :
    (addToSuggestedHistory ex newIds).Nodup := by
  induction newIds generalizing ex with
  | nil => exact h
  | cons i t ih =>
    rw [addToSuggestedHistory_cons]
    split
    · exact ih ex h
    · refine ih _ ?_
      rename_i hni
      simp [List.nodup_append, h, hni]

/-- `_extract_suggestions` never emits more than `max_suggestions` records. -/
theorem extractSuggestions_length_le (data : SchedulingData) (chosen : List Slot)
    (conf : ℚ) (status : String) :
    (extractSuggestions data chosen conf status).length ≤ maxSuggestions := by
  unfold extractSuggestions
  split
  · simp
  · exact List.length_take_le maxSuggestions _

/-- If the retry scan reports no solvable count, the oracle failed at every
count in the list. -/
theorem findFirstSolvable_eq_none {sol : Nat → Option (List Slot × Bool)} :
    ∀ {L : List Nat}, findFirstSolvable sol L = none → ∀ k ∈ L, sol k = none := by
  intro L
  induction L with
  | nil => intro _ k hk; simp at hk
  | cons a t ih =>
    intro h k hk
    unfold findFirstSolvable at h
    cases hs : sol a with
    | some p => rw [hs] at h; simp at h
    | none =>
      rw [hs] at h
      rcases List.mem_cons.mp hk with rfl | hk'
      · exact hs
      · exact ih h k hk'

/-- If the retry scan succeeds at `k`, then `k` is in the list, the oracle
solved at `k`, and (for a strictly decreasing list) failed at every larger
count in the list. -/
theorem findFirstSolvable_eq_some {sol : Nat → Option (List Slot × Bool)} :
    ∀ {L : List Nat} {k : Nat} {ch : List Slot} {b : Bool},
      findFirstSolvable sol L = some (k, ch, b) →
      k ∈ L ∧ sol k = some (ch, b) ∧
        (L.Pairwise (· > ·) → ∀ j ∈ L, k < j → sol j = none) := by
  intro L
  induction L with
  | nil => intro k ch b h; simp [findFirstSolvable] at h
  | cons a t ih =>
    intro k ch b h
    unfold findFirstSolvable at h
    cases hs : sol a with
    | some p =>
      obtain ⟨p1, p2⟩ := p
      rw [hs] at h
      simp only [Option.some.injEq, Prod.mk.injEq] at h
      obtain ⟨rfl, rfl, rfl⟩ := h
      refine ⟨List.mem_cons_self _ _, hs, ?_⟩
      intro hp j hj hlt
      rcases List.mem_cons.mp hj with rfl | hj'
      · omega
      · have := (List.pairwise_cons.mp hp).1 j hj'
        omega
    | none =>
      rw [hs] at h
      obtain ⟨hk, hsol, hrest⟩ := ih h
      refine ⟨List.mem_cons_of_mem _ hk, hsol, ?_⟩
      intro hp j hj hlt
      rcases List.mem_cons.mp hj with rfl | hj'
      · exact hs
      · exact hrest (List.pairwise_cons.mp hp).2 j hj' hlt

/-- The retry counts are strictly decreasing. -/
theorem countdown_pairwise (n : Nat) : (countdown n).Pairwise (· > ·) := by
  unfold countdown
  have h2 : ((List.range (n - 1)).reverse).Pairwise (· > ·) :=
    List.pairwise_reverse.mpr (by simpa using List.pairwise_lt_range (n - 1))
  exact List.Pairwise.map _ (fun a b hab => Nat.succ_lt_succ hab) h2

/-! ## Claim theorems -/

/-- C7: the solver invocation step reports exactly one of the five states
(`OPTIMAL`, `FEASIBLE`, infeasible reported as `"NO_SOLUTION"`, the solver's
unknown/timeout status reported as `"TIMEOUT"`, `"INVALID"`), distinct
states are reported distinctly, and the confidence is 1.0 for `OPTIMAL`,
0.8 for `FEASIBLE` and 0.0 for every other status. -/
theorem solver_status_map_and_confidence :
    (∀ s : CpStatus, statusMap s = "OPTIMAL" ∨ statusMap s = "FEASIBLE" ∨
      statusMap s = "NO_SOLUTION" ∨ statusMap s = "TIMEOUT" ∨ statusMap s = "INVALID") ∧
    statusMap .INFEASIBLE = "NO_SOLUTION" ∧
    statusMap .UNKNOWN = "TIMEOUT" ∧
    (∀ s t : CpStatus, statusMap s = statusMap t → s = t) ∧
    statusConfidence .OPTIMAL = 1 ∧
    statusConfidence .FEASIBLE = 0.8 ∧
    (∀ s : CpStatus, s ≠ .OPTIMAL → s ≠ .FEASIBLE → statusConfidence s = 0) := by
  refine ⟨?_, rfl, rfl, ?_,
    by unfold statusConfidence; rw [if_pos rfl]; norm_num,
    by unfold statusConfidence; rw [if_neg (by decide), if_pos rfl], ?_⟩
  · intro s; cases s <;> simp [statusMap]
  · intro s t h; cases s <;> cases t <;> first | rfl | (simp [statusMap] at h)
  · intro s h1 h2
    cases s with
    | OPTIMAL => exact absurd rfl h1
    | FEASIBLE => exact absurd rfl h2
    | INFEASIBLE => unfold statusConfidence; rw [if_neg (by decide), if_neg (by decide)]; norm_num
    | UNKNOWN => unfold statusConfidence; rw [if_neg (by decide), if_neg (by decide)]; norm_num
    | MODEL_INVALID => unfold statusConfidence; rw [if_neg (by decide), if_neg (by decide)]; norm_num

/-- C8: every scheduling result returned by the pipeline carries at most
`max_suggestions = 5` suggestions, regardless of the requested session count
and of how many decision variables the solver assigned true: the extractor
truncates the sorted list, and every short-circuit result is empty. -/
theorem pipeline_returns_at_most_five_suggestions
    (data : SchedulingData) (now : Int) (mainSol : Option (List Slot × Bool))
    (retrySol : Nat → Option (List Slot × Bool)) (numSessions : Nat)
    (excl : List Nat) (recentBookings : List Booking) :
    (suggestPipeline data now mainSol retrySol numSessions excl
      recentBookings).suggestedSlots.length ≤ 5 ∧ maxSuggestions = 5 := by
  refine ⟨?_, rfl⟩
  unfold suggestPipeline
  split
  · simp [createNoAvailabilityResult]
  · simp [createQuotaExceededResult]
  · cases mainSol with
    | some p =>
      obtain ⟨ch, b⟩ := p
      dsimp only
      simpa [maxSuggestions] using extractSuggestions_length_le data ch _ _
    | none =>
      dsimp only
      unfold tryReducedSessionCounts
      split
      · rename_i k ch b heq
        simpa [maxSuggestions, mkReducedCountResult] using
          extractSuggestions_length_le data ch _ _
      · simp [createDetailedFailureAnalysis]

/-- C9: `SuggestionSession.add_to_suggested_history` only appends (the stored
history is a prefix of the result), every id already present remains present
and the new ids become present (so the historical set grows monotonically),
a call whose ids are all already present leaves the history unchanged, and
no duplicates are ever introduced. -/
theorem add_to_suggested_history_append_only_spec (existing newIds : List Nat) :
    existing <+: addToSuggestedHistory existing newIds ∧
    (∀ x, x ∈ addToSuggestedHistory existing newIds ↔ x ∈ existing ∨ x ∈ newIds) ∧
    ((∀ x ∈ newIds, x ∈ existing) → addToSuggestedHistory existing newIds = existing) ∧
    (existing.Nodup → (addToSuggestedHistory existing newIds).Nodup) :=
  ⟨prefix_addToSuggestedHistory existing newIds,
   fun x => mem_addToSuggestedHistory existing newIds x,
   addToSuggestedHistory_of_subset existing newIds,
   nodup_addToSuggestedHistory existing newIds⟩

/-- Witness for C9: idempotence and duplicate-freeness evaluated at concrete
histories. -/
theorem add_to_suggested_history_append_only_spec_witness :
    addToSuggestedHistory [5, 9] [9, 9, 5] = [5, 9] ∧
    (addToSuggestedHistory [5] [7, 7]).Nodup :=
  ⟨(add_to_suggested_history_append_only_spec [5, 9] [9, 9, 5]).2.2.1 (by decide),
   (add_to_suggested_history_append_only_spec [5] [7, 7]).2.2.2 (by decide)⟩

/-- C10: when the client's plan lacks a `sessions_per_week` value, every
quota computation - the pre-solve quota check, the weekly-quota constraint
(forced slots and its explanation), and the week-status message - behaves
exactly as with an explicit weekly limit of 3. -/
theorem missing_weekly_quota_defaults_to_three
    (data : SchedulingData) (numSessions : Nat)
    (h : data.clientPlan.sessionsPerWeek = none) :
    weeklyLimit data.clientPlan = 3 ∧
    preSolve data numSessions = preSolve (setWeeklyLimitThree data) numSessions ∧
    weeklyQuotaForcedSlots data = weeklyQuotaForcedSlots (setWeeklyLimitThree data) ∧
    weeklyQuotaExplanation data = weeklyQuotaExplanation (setWeeklyLimitThree data) ∧
    generateWeekStatusMessage data = generateWeekStatusMessage (setWeeklyLimitThree data) := by
  have hl : weeklyLimit data.clientPlan = 3 := by simp [weeklyLimit, h]
  have hl2 : weeklyLimit (setWeeklyLimitThree data).clientPlan = 3 := by
    simp [weeklyLimit, setWeeklyLimitThree]
  have hc1 : countCurrentWeekBookings (setWeeklyLimitThree data) =
      countCurrentWeekBookings data := rfl
  have hc2 : countNextWeekBookings (setWeeklyLimitThree data) =
      countNextWeekBookings data := rfl
  have ha : (setWeeklyLimitThree data).availableSlots = data.availableSlots := rfl
  refine ⟨hl, ?_, ?_, ?_, ?_⟩
  · unfold preSolve RemainingQuota
    rw [hl, hl2, hc1, ha]
  · unfold weeklyQuotaForcedSlots RemainingQuota
    rw [hl, hl2, hc1, ha]
  · unfold weeklyQuotaExplanation
    rw [hl, hl2, hc1]
  · unfold generateWeekStatusMessage
    rw [hl, hl2, hc1, hc2]

/-- Witness for C10: a concrete plan lacking the weekly quota behaves as
quota 3. -/
theorem missing_weekly_quota_defaults_to_three_witness :
    dataNoLimit.clientPlan.sessionsPerWeek = none ∧
    weeklyLimit dataNoLimit.clientPlan = 3 ∧
    generateWeekStatusMessage dataNoLimit =
      generateWeekStatusMessage (setWeeklyLimitThree dataNoLimit) :=
  ⟨rfl, (missing_weekly_quota_defaults_to_three dataNoLimit 1 rfl).1,
   (missing_weekly_quota_defaults_to_three dataNoLimit 1 rfl).2.2.2.2⟩

/-- C3 counterexample: the claim "every place the engine resolves a candidate
slot computes the same value, given by one rule" is false at explicit inputs:
with the window starting Wednesday (minute 2880), the pairwise recovery
check resolves the Monday-14:00 slot to a different value than the
recovery/past-time checks do; and at start = now = Monday 12:30 (minute 750)
the extracted suggestion date combined with the slot hour differs from the
past-time check's resolution of the Monday-12:00 slot. -/
theorem slot_resolution_mismatch_counterexample :
    pairwiseDatetime 2880 slotMon14 ≠ recoveryCheckDatetime 2880 10800 slotMon14 ∧
    suggestionDate 750 slotMon12 * 1440 + slotMon12.startHour * 60 ≠
      currentTimeCheckDatetime 750 750 slotMon12 := by decide

/-- C3 (amended): the recovery-vs-existing-bookings check and the past-time
check resolve a slot identically, and both follow the spec's rule (next
occurrence of the slot's day-of-week on/after the start date, rolled forward
one week when that occurrence is the start date itself and the slot's hour
has already passed).  The pairwise check instead offsets the start date by
`day_of_week` days directly, and the extracted suggestion date rolls forward
only when the start date's hour strictly exceeds the slot hour; it agrees
with the rule's date whenever the slot does not resolve to the start date
itself. -/
theorem slot_resolution_rule_refinement (startDate now : Int) (s : Slot)
    (hh : 0 ≤ s.startHour ∧ s.startHour < 24) :
    recoveryCheckDatetime startDate now s = currentTimeCheckDatetime startDate now s ∧
    currentTimeCheckDatetime startDate now s = specNextOccurrence startDate now s ∧
    ((s.dayOfWeek - weekday startDate) % 7 ≠ 0 →
      suggestionDate startDate s = dateOf (specNextOccurrence startDate now s)) := by
  obtain ⟨hh0, hh24⟩ := hh
  have hd : 0 ≤ (s.dayOfWeek - weekday startDate) % 7 :=
    Int.emod_nonneg _ (by norm_num)
  refine ⟨rfl, ?_, ?_⟩
  · simp only [currentTimeCheckDatetime, specNextOccurrence, dayStart, dateOf]
    split_ifs with h1 h2 h2 <;> omega
  · intro hof
    simp only [suggestionDate, extractionDays, specNextOccurrence, dateOf]
    rw [if_neg (by omega), if_neg (by omega)]
    omega

/-- Witness for C3 (amended), at the Wednesday window and the Thursday slot
(which does not resolve to the start date itself). -/
theorem slot_resolution_rule_refinement_witness :
    (0 ≤ slotThu10.startHour ∧ slotThu10.startHour < 24) ∧
    (recoveryCheckDatetime 2880 10800 slotThu10 = currentTimeCheckDatetime 2880 10800 slotThu10 ∧
     currentTimeCheckDatetime 2880 10800 slotThu10 = specNextOccurrence 2880 10800 slotThu10 ∧
     ((slotThu10.dayOfWeek - weekday 2880) % 7 ≠ 0 →
       suggestionDate 2880 slotThu10 = dateOf (specNextOccurrence 2880 10800 slotThu10))) :=
  ⟨by decide, slot_resolution_rule_refinement 2880 10800 slotThu10 (by decide)⟩

/-- C4: when the available-slot list is non-empty and the remaining weekly
quota (plan quota minus bookings in the week of the context's start date) is
non-positive, the pipeline short-circuits to the quota-exceeded result with
zero suggestions - the result does not depend on either solver oracle, so
the solver is never invoked; when the remaining quota is positive but
smaller than the requested count, the engine solves for the remaining quota
instead. -/
theorem quota_short_circuit_and_capping
    (data : SchedulingData) (now : Int) (numSessions : Nat) (excl : List Nat)
    (recentBookings : List Booking) (mainSol : Option (List Slot × Bool))
    (retrySol : Nat → Option (List Slot × Bool))
    (hne : data.availableSlots ≠ []) :
    (RemainingQuota data ≤ 0 →
      preSolve data numSessions = PreSolveDecision.quotaExceeded ∧
      suggestPipeline data now mainSol retrySol numSessions excl recentBookings =
        createQuotaExceededResult data now recentBookings ∧
      (createQuotaExceededResult data now recentBookings).totalSuggestions = 0 ∧
      (createQuotaExceededResult data now recentBookings).suggestedSlots = []) ∧
    (0 < RemainingQuota data → RemainingQuota data < (numSessions : Int) →
      preSolve data numSessions = PreSolveDecision.solve (RemainingQuota data).toNat) := by
  constructor
  · intro hq
    have hps : preSolve data numSessions = PreSolveDecision.quotaExceeded := by
      unfold preSolve
      rw [if_neg hne, if_pos hq]
    refine ⟨hps, ?_, rfl, rfl⟩
    unfold suggestPipeline
    rw [hps]
  · intro h1 h2
    unfold preSolve
    rw [if_neg hne, if_neg (by omega), if_pos h2]

/-- Witness for C4: three bookings in the start week exhaust a quota of 3 and
yield a no-suggestion quota result for any oracle, while one booking caps a
request for 5 sessions to 2. -/
theorem quota_short_circuit_and_capping_witness :
    dataQuotaFull.availableSlots ≠ [] ∧ RemainingQuota dataQuotaFull ≤ 0 ∧
    (suggestPipeline dataQuotaFull 10800 none (fun _ => none) 2 [] []).totalSuggestions = 0 ∧
    preSolve dataQuotaCap 5 = PreSolveDecision.solve 2 := by
  have h1 := quota_short_circuit_and_capping dataQuotaFull 10800 2 [] [] none
    (fun _ => none) (by decide)
  have h2 := quota_short_circuit_and_capping dataQuotaCap 10800 5 [] [] none
    (fun _ => none) (by decide)
  refine ⟨by decide, by decide, ?_, ?_⟩
  · have h3 := h1.1 (by decide)
    rw [h3.2.1]
    exact h3.2.2.1
  · have h4 := h2.2 (by decide) (by decide)
    rw [h4]
    decide

/-- C2: the claim that any two distinct suggested sessions are at least 24
hours apart in resolved date-time fails on the code: with the window
starting Wednesday 00:00 (minute 2880, also "now"), the only admissible
assignment for two sessions selects the Sunday-10:00 and Monday-9:00 slots,
whose resolved date-times are 23 hours apart - the pairwise constraint
measured their distance with its own `start + day_of_week days` arithmetic
(145 hours) and so added no mutual exclusion.  (The separation from existing
bookings, the claim's other half, is enforced.) -/
theorem pairwise_recovery_violation_at_concrete_input :
    AdmissibleFull dataPairGap 2880 [] 2 [slotSun10, slotMon9] ∧
    (∀ ch ∈ dataPairGap.availableSlots.sublists,
      AdmissibleFull dataPairGap 2880 [] 2 ch → ch = [slotSun10, slotMon9]) ∧
    ((recoveryCheckDatetime dataPairGap.startDate 2880 slotSun10) -
      (recoveryCheckDatetime dataPairGap.startDate 2880 slotMon9)).natAbs <
        minRecoveryHours * 60 := by decide

/-- C6: the claim that every suggestion in a returned result has a resolved
date-time strictly in the future fails on the code: at start = now = Monday
12:30 (minute 750), the Monday-12:00 slot is the unique admissible selection
(its constraint-side resolution is next Monday 12:00, in the future), yet
the extracted record dates it on the start Monday at hour 12 - half an hour
in the past - because the extractor's rollforward tests the base date's hour
instead of the current time. -/
theorem extraction_emits_past_datetime_at_concrete_input :
    AdmissibleFull dataSameHour 750 [] 1 [slotMon12] ∧
    (∀ ch ∈ dataSameHour.availableSlots.sublists,
      AdmissibleFull dataSameHour 750 [] 1 ch → ch = [slotMon12]) ∧
    (∃ s ∈ extractSuggestions dataSameHour [slotMon12]
        (statusConfidence CpStatus.OPTIMAL) "OPTIMAL",
      s.dateSuggestion * 1440 + s.hour * 60 ≤ 750) ∧
    750 < currentTimeCheckDatetime dataSameHour.startDate 750 slotMon12 := by decide

/-- C5 counterexample: the claim that the degradation controller re-solves
"under the same constraints" is false.  In the re-suggestion scenario, with
slots 1 and 2 excluded, the full constraint set is infeasible at count 2
*and* at count 1 (so a controller keeping the same constraints would return
zero suggestions), yet the code's retry model at count 1 - which drops the
excluded-slots and weekly-quota constraints - is feasible, and its unique
admissible assignment selects slot 1, an excluded slot. -/
theorem retry_drops_exclusion_constraints_counterexample :
    (∀ ch ∈ dataResuggest.availableSlots.sublists,
      ¬ AdmissibleFull dataResuggest nowResuggest [1, 2] 2 ch) ∧
    (∀ ch ∈ dataResuggest.availableSlots.sublists,
      ¬ AdmissibleFull dataResuggest nowResuggest [1, 2] 1 ch) ∧
    AdmissibleRetry dataResuggest nowResuggest 1 [slotMon14] ∧
    (∀ ch ∈ dataResuggest.availableSlots.sublists,
      AdmissibleRetry dataResuggest nowResuggest 1 ch → ch = [slotMon14]) ∧
    slotMon14.id ∈ [1, 2] := by decide

/-- C5 (amended): on infeasibility at the requested count the controller
re-solves at counts N−1 down to 1 under the capacity, recovery,
coach-availability, current-time and preference constraints (the
weekly-quota and excluded-slots constraints are not re-applied).  For any
sound solver oracle, either every retry count fails and the detailed failure
analysis with zero suggestions is returned, or the first (largest) count `k`
with an optimal/feasible outcome yields a partial result whose confidence is
the base solver confidence times `k / N` and whose diagnostics begin with
the explicit warning message. -/
theorem degradation_controller_behaviour
    (sol : Nat → Option (List Slot × Bool)) (data : SchedulingData) (now : Int)
    (origN : Nat) (prevExpl : List String)
    (hs : ∀ k ch b, sol k = some (ch, b) → AdmissibleRetry data now k ch) :
    ((∀ k ∈ countdown origN, sol k = none) ∧
      tryReducedSessionCounts sol data now origN prevExpl =
        createDetailedFailureAnalysis data origN
          (if countdown origN = [] then prevExpl else retryExplanations data now) ∧
      (tryReducedSessionCounts sol data now origN prevExpl).totalSuggestions = 0 ∧
      (tryReducedSessionCounts sol data now origN prevExpl).suggestedSlots = [])
    ∨ (∃ k ch b, k ∈ countdown origN ∧ sol k = some (ch, b) ∧
        AdmissibleRetry data now k ch ∧
        (∀ j ∈ countdown origN, k < j → sol j = none) ∧
        tryReducedSessionCounts sol data now origN prevExpl =
          mkReducedCountResult data now origN k ch b ∧
        (mkReducedCountResult data now origN k ch b).confidenceScore =
          statusConfidence (if b then CpStatus.OPTIMAL else CpStatus.FEASIBLE) *
            ((k : ℚ) / (origN : ℚ)) ∧
        (mkReducedCountResult data now origN k ch b).constraintsSatisfied.head? =
          some (warningMessage data k origN)) := by
  cases hf : findFirstSolvable sol (countdown origN) with
  | none =>
    left
    have hall := findFirstSolvable_eq_none hf
    refine ⟨hall, ?_, ?_, ?_⟩ <;>
      simp [tryReducedSessionCounts, hf, createDetailedFailureAnalysis]
  | some t =>
    obtain ⟨k, ch, b⟩ := t
    right
    obtain ⟨hk, hsol, hrest⟩ := findFirstSolvable_eq_some hf
    exact ⟨k, ch, b, hk, hsol, hs k ch b hsol, hrest (countdown_pairwise origN),
      by simp [tryReducedSessionCounts, hf], rfl, rfl⟩

/-- Witness for C5 (amended): with the oracle that solves only count 1 (with
slot 1, optimally) in the re-suggestion scenario, the controller's partial
result carries confidence `1.0 × 1/2`. -/
theorem degradation_controller_behaviour_witness :
    (∀ k ch b, oracleMonOnly k = some (ch, b) →
      AdmissibleRetry dataResuggest nowResuggest k ch) ∧
    (tryReducedSessionCounts oracleMonOnly dataResuggest nowResuggest 2 []).confidenceScore =
      statusConfidence CpStatus.OPTIMAL * ((1 : ℚ) / (2 : ℚ)) := by
  have hs : ∀ k ch b, oracleMonOnly k = some (ch, b) →
      AdmissibleRetry dataResuggest nowResuggest k ch := by
    intro k ch b h
    unfold oracleMonOnly at h
    split at h
    · rename_i hk
      subst hk
      simp only [Option.some.injEq, Prod.mk.injEq] at h
      obtain ⟨h1, h2⟩ := h
      subst h1
      decide
    · exact absurd h (by simp)
  refine ⟨hs, ?_⟩
  rcases degradation_controller_behaviour oracleMonOnly dataResuggest nowResuggest 2 [] hs with
    ⟨hall, _⟩ | ⟨k, ch, b, hk, hsol, _, _, heq, hconf, _⟩
  · exact absurd (hall 1 (by decide)) (by simp [oracleMonOnly])
  · have hk1 : k = 1 := by
      have hcd : countdown 2 = [1] := rfl
      rw [hcd] at hk
      simpa using hk
    subst hk1
    rw [show oracleMonOnly 1 = some ([slotMon14], true) from rfl,
      Option.some_inj, Prod.mk.injEq] at hsol
    obtain ⟨rfl, rfl⟩ := hsol
    rw [heq, hconf]
    norm_num

/-- C1: the invariant "no slot id in the session's historical set at the
start of a call is returned by that call" is violated by the code.  In the
re-suggestion scenario (history `[1, 2]`, current suggestion `[2]`, original
request for 2 sessions), the full model is infeasible, and for *any* solver
oracle that is sound for the constraints actually in each model (and
complete at the retry count 1), the session-based re-suggestion endpoint
returns exactly slot 1 - which is in the history - because
`_try_partial_solutions` rebuilds the model without the excluded-slots
constraint. -/
theorem resuggest_returns_historical_slot
    (mainSol : Option (List Slot × Bool)) (retrySol : Nat → Option (List Slot × Bool))
    (hm : ∀ ch b, mainSol = some (ch, b) →
      ch ∈ dataResuggest.availableSlots.sublists ∧
      AdmissibleFull dataResuggest nowResuggest [1, 2] 2 ch)
    (hr : ∀ k ch b, retrySol k = some (ch, b) →
      ch ∈ dataResuggest.availableSlots.sublists ∧
      AdmissibleRetry dataResuggest nowResuggest k ch)
    (hrc : retrySol 1 = none → ¬ RetryFeasible dataResuggest nowResuggest 1) :
    ∃ s ∈ (reSuggestSessionBased dataResuggest nowResuggest mainSol retrySol []
        sessResuggest).1.suggestedSlots,
      s.slotId ∈ sessResuggest.history := by
  have hnofull : ∀ ch ∈ dataResuggest.availableSlots.sublists,
      ¬ AdmissibleFull dataResuggest nowResuggest [1, 2] 2 ch := by decide
  have hmain : mainSol = none := by
    cases hms : mainSol with
    | none => rfl
    | some p =>
      obtain ⟨ch, b⟩ := p
      obtain ⟨h1, h2⟩ := hm ch b hms
      exact absurd h2 (hnofull ch h1)
  obtain ⟨b, hrs⟩ : ∃ b, retrySol 1 = some ([slotMon14], b) := by
    cases hrs : retrySol 1 with
    | none => exact absurd ⟨[slotMon14], by decide, by decide⟩ (hrc hrs)
    | some p =>
      obtain ⟨ch, b⟩ := p
      obtain ⟨h1, h2⟩ := hr 1 ch b hrs
      have huniq : ∀ c ∈ dataResuggest.availableSlots.sublists,
          AdmissibleRetry dataResuggest nowResuggest 1 c → c = [slotMon14] := by decide
      exact ⟨b, by rw [huniq ch h1 h2]⟩
  subst hmain
  have hff : findFirstSolvable retrySol (countdown 2) = some (1, [slotMon14], b) := by
    have hcd : countdown 2 = [1] := rfl
    rw [hcd]
    unfold findFirstSolvable
    rw [hrs]
  have hres : (reSuggestSessionBased dataResuggest nowResuggest none retrySol []
      sessResuggest).1 = mkReducedCountResult dataResuggest nowResuggest 2 1 [slotMon14] b := by
    show tryReducedSessionCounts retrySol dataResuggest nowResuggest 2
        (mainExplanations dataResuggest nowResuggest
          (addToSuggestedHistory sessResuggest.history sessResuggest.currentSuggestionIds)) =
      mkReducedCountResult dataResuggest nowResuggest 2 1 [slotMon14] b
    unfold tryReducedSessionCounts
    rw [hff]
  rw [hres]
  cases b <;> decide

/-- Witness for C1: the sound-and-complete oracle that solves only the retry
count 1 makes the endpoint return slot 1 from the session's history. -/
theorem resuggest_returns_historical_slot_witness :
    (∀ k ch b, oracleMonOnly k = some (ch, b) →
      ch ∈ dataResuggest.availableSlots.sublists ∧
      AdmissibleRetry dataResuggest nowResuggest k ch) ∧
    ∃ s ∈ (reSuggestSessionBased dataResuggest nowResuggest none oracleMonOnly []
        sessResuggest).1.suggestedSlots,
      s.slotId ∈ sessResuggest.history := by
  have hr : ∀ k ch b, oracleMonOnly k = some (ch, b) →
      ch ∈ dataResuggest.availableSlots.sublists ∧
      AdmissibleRetry dataResuggest nowResuggest k ch := by
    intro k ch b h
    unfold oracleMonOnly at h
    split at h
    · rename_i hk
      subst hk
      simp only [Option.some.injEq, Prod.mk.injEq] at h
      obtain ⟨h1, h2⟩ := h
      subst h1
      exact ⟨by decide, by decide⟩
    · exact absurd h (by simp)
  refine ⟨hr, resuggest_returns_historical_slot none oracleMonOnly ?_ hr ?_⟩
  · intro ch b h
    exact absurd h (by simp)
  · intro h
    unfold oracleMonOnly at h
    simp at h

end Coach
